import Mathlib

/-!
Shallow embedding of the `woodnet-showcase` repository: two Jupyter
notebooks (`showcase-prediction.ipynb` and the visualization notebook)
that download sample volumetric scan artifacts and a pretrained weight
file, load the volumes, run a single forward pass of a 3D classification
network, and visualize the data.  Each notebook is a linear script; we
embed it as a concrete list of steps together with an explicit
filesystem- and model-mode semantics, and embed the array reshaping done
before inference directly.  External library calls whose behaviour the
claims reference (`create_model`, `load_state_dict`, `torch.load`,
`urllib.request.urlretrieve`) are modelled from the specification, as
marked in their doc comments.
-/

namespace Woodnet

/-- Path constant from `showcase-prediction.ipynb`: the local artifact
directory all input data is read from. -/
def ARTIFACT_DIR : String := "./artifacts"

/-- Constant from both notebooks: the fixed internal dataset path used to
locate the volume/metadata pair inside each HDF5 container. -/
def INTERNAL_PATH : String := "scangroup/dataset"

/-- Local path of the acer HDF5 artifact (`ARTIFACT_DIR / 'acer-artifact.hdf5'`). -/
def ACER_ARTIFACT_PATH : String := "./artifacts/acer-artifact.hdf5"

/-- Local path of the pinus HDF5 artifact (`ARTIFACT_DIR / 'pinus-artifact.hdf5'`). -/
def PINUS_ARTIFACT_PATH : String := "./artifacts/pinus-artifact.hdf5"

/-- Local path of the pretrained weight file (`ARTIFACT_DIR / 'weights-artifact.pth'`). -/
def PRETRAINED_WEIGHTS_PATH : String := "./artifacts/weights-artifact.pth"

/-- Remote URL of the acer scan artifact. -/
def ACER_URL : String := "https://zenodo.org/records/13905949/files/acer-artifact.hdf5"

/-- Remote URL of the pinus scan artifact. -/
def PINUS_URL : String := "https://zenodo.org/records/13905949/files/pinus-artifact.hdf5"

/-- Remote URL of the pretrained weight artifact. -/
def WEIGHTS_URL : String := "https://zenodo.org/records/13905949/files/weights-artifact.pth"

/-- One effectful statement of a notebook, in cell execution order.
Statements with no effect relevant to the claims (imports, printing,
plotting, in-memory tensor construction) are omitted; every assertion,
download, file read, model-state change and forward pass is present. -/
inductive Step where
  /-- `assert path-check, message`: halts with `msg` when `path` is absent. -/
  | assertExists (path : String) (msg : String)
  /-- `urllib.request.urlretrieve(url, dest)`. -/
  | retrieve (url : String) (dest : String)
  /-- `read_data_from_hdf5(path, internal)`: reads the volume. -/
  | readData (path : String) (internal : String)
  /-- `read_fingerprint_from_hdf5(path, internal)`: reads the metadata record. -/
  | readFingerprint (path : String) (internal : String)
  /-- `model = create_model(configuration)`. -/
  | createModelStep
  /-- `torch.load(path, map_location=..., weights_only=...)`: reads the weight file. -/
  | loadWeights (path : String) (map_location : String) (weights_only : Bool)
  /-- `model.load_state_dict(state_dict)`. -/
  | loadStateDict
  /-- `model.eval()`. -/
  | evalMode
  /-- `model.testing = b`. -/
  | setTesting (b : Bool)
  /-- a forward pass `model(tensor)`, with the flag recording whether it
  runs inside `torch.inference_mode()`. -/
  | forward (inference_mode : Bool) (sample : String)
deriving DecidableEq

/-- The effectful statements of `showcase-prediction.ipynb`, in cell order. -/
def predictionNotebook : List Step :=
  [ .assertExists ARTIFACT_DIR "artifacts directory should exist",
    .retrieve ACER_URL ACER_ARTIFACT_PATH,
    .retrieve PINUS_URL PINUS_ARTIFACT_PATH,
    .retrieve WEIGHTS_URL PRETRAINED_WEIGHTS_PATH,
    .assertExists ACER_ARTIFACT_PATH "setup failed: acer data artifact missing",
    .assertExists PINUS_ARTIFACT_PATH "setup failed: pinus data artifact missing",
    .readData ACER_ARTIFACT_PATH INTERNAL_PATH,
    .readFingerprint ACER_ARTIFACT_PATH INTERNAL_PATH,
    .readData PINUS_ARTIFACT_PATH INTERNAL_PATH,
    .readFingerprint PINUS_ARTIFACT_PATH INTERNAL_PATH,
    .createModelStep,
    .assertExists PRETRAINED_WEIGHTS_PATH "setup failed: pretrained weights artifact missing",
    .loadWeights PRETRAINED_WEIGHTS_PATH "cpu" true,
    .loadStateDict,
    .evalMode,
    .setTesting true,
    .forward true "acer",
    .forward true "pinus" ]

/-- The effectful statements of the visualization notebook, in cell order. -/
def visualizationNotebook : List Step :=
  [ .assertExists ARTIFACT_DIR "artifacts directory should exist",
    .retrieve ACER_URL ACER_ARTIFACT_PATH,
    .retrieve PINUS_URL PINUS_ARTIFACT_PATH,
    .assertExists ACER_ARTIFACT_PATH "setup failure: acer artifact is missing",
    .assertExists PINUS_ARTIFACT_PATH "setup failure: pinus artifact is missin",
    .readData ACER_ARTIFACT_PATH INTERNAL_PATH,
    .readFingerprint ACER_ARTIFACT_PATH INTERNAL_PATH,
    .readData PINUS_ARTIFACT_PATH INTERNAL_PATH,
    .readFingerprint PINUS_ARTIFACT_PATH INTERNAL_PATH ]

/-! ## Filesystem semantics (for the fetch, assert and read steps) -/

/-- A filesystem: each path either holds a file content or is absent. -/
def FS : Type := String → Option String

/-- Modelled from the spec: `urllib.request.urlretrieve(url, dest)` writes
the remote resource at `url` to `dest`, creating or overwriting the
destination file unconditionally; no resumption, retry, or integrity
check.  `remote` gives the content served at each URL. -/
def retrieveFile (remote : String → String) (fs : FS) (url dest : String) : FS :=
  fun p => if p = dest then some (remote url) else fs p

/-- The `(url, destination)` pairs of the retrieve statements of a trace,
in order. -/
def retrieveTargets (trace : List Step) : List (String × String) :=
  trace.filterMap fun s =>
    match s with
    | .retrieve u d => some (u, d)
    | _ => none

/-- Running all retrieve statements of a trace against a filesystem. -/
def runFetch (remote : String → String) (trace : List Step) (fs : FS) : FS :=
  (retrieveTargets trace).foldl (fun fs ud => retrieveFile remote fs ud.1 ud.2) fs

/-- One step of the script semantics: an unmet assertion halts with its
message; a retrieve overwrites the destination; reading a missing file
is a propagated error; the remaining steps do not touch the filesystem. -/
def execStep (remote : String → String) (fs : FS) : Step → Except String FS
  | .assertExists p msg => if (fs p).isSome then .ok fs else .error msg
  | .retrieve url dest => .ok (retrieveFile remote fs url dest)
  | .readData p _ => if (fs p).isSome then .ok fs else .error "unable to open file"
  | .readFingerprint p _ => if (fs p).isSome then .ok fs else .error "unable to open file"
  | .loadWeights p _ _ => if (fs p).isSome then .ok fs else .error "unable to open file"
  | _ => .ok fs

/-- Running a trace top to bottom; the first error halts the run (no
handled error path exists in either notebook). -/
def runSteps (remote : String → String) (fs : FS) : List Step → Except String FS
  | [] => .ok fs
  | s :: rest =>
    match execStep remote fs s with
    | .ok fs2 => runSteps remote fs2 rest
    | .error e => .error e

/-- `true` iff every file-read statement of the trace (volume read,
fingerprint read, weight-file read) is preceded by an existence
assertion on the very path it reads.  `asserted` accumulates the paths
asserted so far. -/
def readsAsserted (asserted : List String) : List Step → Bool
  | [] => true
  | .assertExists p _ :: rest => readsAsserted (p :: asserted) rest
  | .readData p _ :: rest => asserted.contains p && readsAsserted asserted rest
  | .readFingerprint p _ :: rest => asserted.contains p && readsAsserted asserted rest
  | .loadWeights p _ _ :: rest => asserted.contains p && readsAsserted asserted rest
  | _ :: rest => readsAsserted asserted rest

/-! ## Model-mode semantics (for `eval()` / `testing`) -/

/-- The mutable mode flags of the model object: `training` is the
train/eval flag toggled by `eval()`, `testing` is the attribute that
activates the final output nonlinearity. -/
structure ModelMode where
  training : Bool
  testing : Bool
deriving DecidableEq

/-- A freshly constructed torch module is in training mode and the
showcased model initializes `testing` to off. -/
def initialMode : ModelMode := ⟨true, false⟩

/-- Effect of one statement on the model mode: `model.eval()` clears the
training flag, `model.testing = b` sets the testing attribute; no other
statement in either notebook touches either flag. -/
def stepMode (m : ModelMode) : Step → ModelMode
  | .evalMode => ⟨false, m.testing⟩
  | .setTesting b => ⟨m.training, b⟩
  | _ => m

/-- The model mode after the first `n` statements of a trace. -/
def modeAt (trace : List Step) (n : Nat) : ModelMode :=
  (trace.take n).foldl stepMode initialMode

/-- Modelled from the spec: the showcased network applies its final
output nonlinearity exactly when the `testing` attribute is set, turning
the raw output into a probability-like score ("To set the final
nonlinearity to active ... we have to enter eval and testing mode"). -/
def finalNonlinearityActive (m : ModelMode) : Bool := m.testing

/-- The indices of the forward-pass statements of a trace. -/
def forwardIndices (trace : List Step) : List Nat :=
  (List.range trace.length).filter fun i =>
    match trace.get? i with
    | some (.forward _ _) => true
    | _ => false

/-! ## Tensors and the per-sample inference procedure -/

/-- A dense tensor over element type `α`: a shape together with the value
at each multi-index (given as a list of coordinates, one per axis). -/
structure Tensor (α : Type) where
  shape : List Nat
  data : List Nat → α

/-- `v[np.newaxis, np.newaxis, ...]`: prepend two leading singleton
dimensions; element values are untouched, each element now sits behind
two extra zero coordinates. -/
def addSingletonDims {α : Type} (t : Tensor α) : Tensor α :=
  { shape := 1 :: 1 :: t.shape, data := fun idx => t.data (idx.drop 2) }

/-- `torch.from_numpy`: shares the underlying buffer, so shape and values
are preserved; the identity in this model. -/
def from_numpy {α : Type} (t : Tensor α) : Tensor α := t

/-- The tensor construction cell of the prediction notebook, for one
sample: `torch.from_numpy(data[np.newaxis, np.newaxis, ...])`. -/
def toModelTensor {α : Type} (t : Tensor α) : Tensor α :=
  from_numpy (addSingletonDims t)

/-- Number of elements of a tensor. -/
def Tensor.numel {α : Type} (t : Tensor α) : Nat := t.shape.foldl (· * ·) 1

/-- `.item()`: succeeds exactly on one-element tensors, returning that
single element; errors otherwise. -/
def Tensor.item {α : Type} (t : Tensor α) : Except String α :=
  if t.numel = 1 then .ok (t.data (t.shape.map fun _ => 0))
  else .error "only one element tensors can be converted to Python scalars"

/-- The per-sample inference procedure of the prediction notebook:
prepend the two singleton dimensions, run the forward pass, and extract
the single scalar element as the prediction score (the
no-gradient-tracking context is recorded on the `forward` trace steps). -/
def inferScore {α : Type} (forwardPass : Tensor α → Tensor α) (vol : Tensor α) :
    Except String α :=
  (forwardPass (toModelTensor vol)).item

/-! ## Spec-modelled external calls -/

/-- The model configuration record of the prediction notebook:
`configuration = ... name: 'ResNet3D', in_channels: 1 ...`. -/
structure ModelConfig where
  name : String
  in_channels : Nat
deriving DecidableEq

/-- The static configuration constant of the prediction notebook. -/
def configuration : ModelConfig := ⟨"ResNet3D", 1⟩

/-- A constructed model object: its architecture name and channel count. -/
structure Model where
  name : String
  in_channels : Nat
deriving DecidableEq

/-- Modelled from the spec: the architecture names recognized by
`woodnet.models.create_model`; the spec names only `ResNet3D` in this
flow. -/
def MODEL_REGISTRY : List String := ["ResNet3D"]

/-- Modelled from the spec: `create_model` from `woodnet.models` builds a
model instance from a static configuration record specifying
architecture name and input channel count; construction fails loudly
(and does not fall back to a default architecture) when the architecture
name is unrecognized. -/
def create_model (conf : ModelConfig) : Except String Model :=
  if MODEL_REGISTRY.contains conf.name then .ok ⟨conf.name, conf.in_channels⟩
  else .error ("unrecognized model architecture name: " ++ conf.name)

/-- The result object of a successful strict parameter load, reporting
the parameter keys that failed to match in either direction. -/
structure LoadReport where
  missing_keys : List String
  unexpected_keys : List String
deriving DecidableEq

/-- Modelled from the spec: `model.load_state_dict(state_dict)` with the
default strict matching, as called in the prediction notebook. The
serialized keys must match the model's expected parameter keys exactly;
any missing or unexpected key fails the load with an error instead of
silently skipping parameters, and a successful load reports that all
keys matched. -/
def load_state_dict (modelKeys stateKeys : List String) : Except String LoadReport :=
  let missing := modelKeys.filter fun k => !(stateKeys.contains k)
  let unexpected := stateKeys.filter fun k => !(modelKeys.contains k)
  if missing.isEmpty && unexpected.isEmpty then .ok ⟨missing, unexpected⟩
  else .error "Error in loading state_dict: missing or unexpected keys"

/-- A serialized weight artifact: either a flat collection of named
tensors (each recorded with the device it was saved from) or a payload
holding arbitrary pickled objects. -/
inductive WeightArtifact where
  | tensors (entries : List (String × String))
  | pickled (desc : String)
deriving DecidableEq

/-- What a deserialization call may hand back: tensor data, or an
arbitrary reconstructed object (only possible without the
weights-only restriction). -/
inductive LoadedObject where
  | tensors (entries : List (String × String))
  | arbitraryObject (desc : String)
deriving DecidableEq

/-- Modelled from the spec: `torch.load(path, map_location, weights_only)`.
With `weights_only = true` deserialization is restricted to tensor/weight
data, so an artifact holding arbitrary pickled objects is rejected with
an error; every loaded tensor is placed on the `map_location` device
regardless of the device it was saved from. -/
def torch_load (a : WeightArtifact) (map_location : String) (weights_only : Bool) :
    Except String LoadedObject :=
  match a with
  | .tensors es => .ok (.tensors (es.map fun e => (e.1, map_location)))
  | .pickled d =>
    if weights_only then .error "Weights only load failed: unsupported pickled object"
    else .ok (.arbitraryObject d)

/-- The `(path, map_location, weights_only)` arguments of the weight
deserialization statements of a trace. -/
def loadWeightsCalls (trace : List Step) : List (String × String × Bool) :=
  trace.filterMap fun s =>
    match s with
    | .loadWeights p loc wo => some (p, loc, wo)
    | _ => none

/-- The internal dataset path argument of every volume read and every
fingerprint read of a trace, in order. -/
def internalPathsUsed (trace : List Step) : List String :=
  trace.filterMap fun s =>
    match s with
    | .readData _ ip => some ip
    | .readFingerprint _ ip => some ip
    | _ => none

/-! ## Helper lemmas -/

/-- A list containing an element outside `m` filters to a nonempty list
under the not-contained-in-`m` predicate. -/
theorem filter_not_contains_isEmpty_false {l m : List String} {k : String}
    (hk : k ∈ l) (hnk : k ∉ m) :
    (l.filter fun x => !(m.contains x)).isEmpty = false := by
  have hmem : k ∈ l.filter fun x => !(m.contains x) := by
    refine List.mem_filter.mpr ⟨hk, ?_⟩
    simp [hnk]
  rcases List.exists_cons_of_ne_nil (List.ne_nil_of_mem hmem) with ⟨a, as, hfe⟩
  rw [hfe]
  rfl

/-- Filtering a list by non-membership in itself yields the empty list. -/
theorem filter_self_contains_eq_nil (ks : List String) :
    (ks.filter fun k => !(ks.contains k)) = [] := by
  refine List.filter_eq_nil_iff.mpr ?_
  intro a ha
  simp [ha]

/-! ## Claim theorems -/

/-- Claim C2: loading the serialized parameter set is by exact key match:
a load that returns successfully reports no missing and no unexpected
keys; any key present on one side and absent on the other makes the load
fail with an error instead of silently skipping parameters; and loading
a key set that matches the model's own keys exactly succeeds with zero
unmatched keys reported. -/
theorem strict_state_dict_load :
    (∀ modelKeys stateKeys : List String, ∀ r : LoadReport,
        load_state_dict modelKeys stateKeys = .ok r →
        r.missing_keys = [] ∧ r.unexpected_keys = [])
    ∧ (∀ modelKeys stateKeys : List String,
        ((∃ k, k ∈ stateKeys ∧ k ∉ modelKeys) ∨ (∃ k, k ∈ modelKeys ∧ k ∉ stateKeys)) →
        load_state_dict modelKeys stateKeys =
          .error "Error in loading state_dict: missing or unexpected keys")
    ∧ (∀ ks : List String, load_state_dict ks ks = .ok ⟨[], []⟩) := by
  refine ⟨?_, ?_, ?_⟩
  · intro mk sk r hok
    simp only [load_state_dict] at hok
    split at hok
    · rename_i hcond
      cases hok
      rw [Bool.and_eq_true] at hcond
      exact ⟨List.isEmpty_iff.mp hcond.1, List.isEmpty_iff.mp hcond.2⟩
    · exact absurd hok (by simp)
  · intro mk sk hmis
    rcases hmis with ⟨k, hk, hnk⟩ | ⟨k, hk, hnk⟩
    · have h := filter_not_contains_isEmpty_false hk hnk
      simp only [load_state_dict]
      rw [h, Bool.and_false]
      rfl
    · have h := filter_not_contains_isEmpty_false hk hnk
      simp only [load_state_dict]
      rw [h, Bool.false_and]
      rfl
  · intro ks
    simp [load_state_dict, filter_self_contains_eq_nil]

/-- Witness for C2: a stray serialized key fails the load; an exactly
matching key set loads with no unmatched keys reported. -/
theorem strict_state_dict_load_apply :
    load_state_dict ["conv.weight"] ["conv.weight", "stray.key"] =
      .error "Error in loading state_dict: missing or unexpected keys"
    ∧ load_state_dict ["conv.weight"] ["conv.weight"] = .ok ⟨[], []⟩ :=
  ⟨strict_state_dict_load.2.1 ["conv.weight"] ["conv.weight", "stray.key"]
      (Or.inl ⟨"stray.key", by decide, by decide⟩),
    strict_state_dict_load.2.2 ["conv.weight"]⟩

/-- Claim C3: for every rank-3 volume, the per-sample inference procedure
prepends two leading singleton dimensions yielding a rank-5 tensor of
shape `(1, 1, depth, height, width)` with element values unchanged; the
forward output's single scalar element is extracted as the prediction
score; and both forward passes of the prediction notebook run inside the
no-gradient-tracking (`torch.inference_mode`) context. -/
theorem per_sample_inference_procedure {α : Type} (v : Tensor α) (d h w : Nat)
    (hs : v.shape = [d, h, w]) :
    (toModelTensor v).shape = [1, 1, d, h, w]
    ∧ (∀ idx : List Nat, (toModelTensor v).data (0 :: 0 :: idx) = v.data idx)
    ∧ (∀ forwardPass : Tensor α → Tensor α,
        (forwardPass (toModelTensor v)).numel = 1 →
        inferScore forwardPass v =
          .ok ((forwardPass (toModelTensor v)).data
            ((forwardPass (toModelTensor v)).shape.map fun _ => 0)))
    ∧ (predictionNotebook.filterMap fun s =>
        match s with
        | .forward im smp => some (im, smp)
        | _ => none) = [(true, "acer"), (true, "pinus")] := by
  refine ⟨?_, fun idx => rfl, ?_, by decide⟩
  · simp [toModelTensor, from_numpy, addSingletonDims, hs]
  · intro forwardPass hn
    simp [inferScore, Tensor.item, hn]

/-- Witness for C3: a concrete 2×2×2 volume acquires shape
`(1, 1, 2, 2, 2)`, and a forward pass returning a one-element tensor
yields its single element as the score. -/
theorem per_sample_inference_procedure_apply :
    (toModelTensor (⟨[2, 2, 2], fun _ => (7 : Nat)⟩ : Tensor Nat)).shape = [1, 1, 2, 2, 2]
    ∧ inferScore (fun _ => ⟨[1], fun _ => (42 : Nat)⟩)
        (⟨[2, 2, 2], fun _ => (7 : Nat)⟩ : Tensor Nat) = .ok 42 := by
  have H := per_sample_inference_procedure (⟨[2, 2, 2], fun _ => (7 : Nat)⟩ : Tensor Nat) 2 2 2 rfl
  exact ⟨H.1, H.2.2.1 (fun _ => ⟨[1], fun _ => (42 : Nat)⟩) rfl⟩

/-- Claim C4: building a model from the static configuration record with
architecture name `ResNet3D` and input channel count 1 succeeds, and any
unrecognized architecture name fails with an error — never a silently
returned default architecture. -/
theorem create_model_rejects_unknown :
    create_model configuration = .ok ⟨"ResNet3D", 1⟩
    ∧ configuration = ⟨"ResNet3D", 1⟩
    ∧ (∀ conf : ModelConfig, conf.name ∉ MODEL_REGISTRY →
        (∀ m : Model, create_model conf ≠ .ok m)
        ∧ create_model conf =
            .error ("unrecognized model architecture name: " ++ conf.name)) := by
  refine ⟨rfl, rfl, ?_⟩
  intro conf hn
  refine ⟨?_, ?_⟩
  · intro m
    simp [create_model, hn]
  · simp [create_model, hn]

/-- Witness for C4: an unrecognized architecture name yields an error. -/
theorem create_model_rejects_unknown_apply :
    create_model ⟨"DenseNet2D", 1⟩ =
      .error ("unrecognized model architecture name: " ++ "DenseNet2D") :=
  (create_model_rejects_unknown.2.2 ⟨"DenseNet2D", 1⟩ (by decide)).2

/-- Claim C5: the retrieval step of the prediction notebook fetches
exactly three files — the two HDF5 scan artifacts and the weight file —
from their remote URLs into the local artifact directory; after running
the fetch, each destination holds the content served at its URL
regardless of what was there before (overwrite), and re-running the
fetch against the already-populated destination changes nothing and
raises no error. -/
theorem fetcher_three_files_overwrite :
    retrieveTargets predictionNotebook =
      [(ACER_URL, ACER_ARTIFACT_PATH), (PINUS_URL, PINUS_ARTIFACT_PATH),
        (WEIGHTS_URL, PRETRAINED_WEIGHTS_PATH)]
    ∧ (retrieveTargets predictionNotebook).length = 3
    ∧ ∀ (remote : String → String) (fs : FS),
        (∀ ud ∈ retrieveTargets predictionNotebook,
          runFetch remote predictionNotebook fs ud.2 = some (remote ud.1))
        ∧ runFetch remote predictionNotebook (runFetch remote predictionNotebook fs)
            = runFetch remote predictionNotebook fs := by
  refine ⟨by decide, by decide, ?_⟩
  intro remote fs
  constructor
  · intro ud hud
    fin_cases hud <;>
      simp [runFetch, retrieveTargets, predictionNotebook, retrieveFile,
        ACER_ARTIFACT_PATH, PINUS_ARTIFACT_PATH, PRETRAINED_WEIGHTS_PATH]
  · funext p
    by_cases h1 : p = PRETRAINED_WEIGHTS_PATH <;>
      by_cases h2 : p = PINUS_ARTIFACT_PATH <;>
        by_cases h3 : p = ACER_ARTIFACT_PATH <;>
          simp [runFetch, retrieveTargets, predictionNotebook, retrieveFile, h1, h2, h3]

/-- Witness for C5: on an empty filesystem with a fixed remote, the acer
destination holds the fetched remote content after the fetch. -/
theorem fetcher_three_files_overwrite_apply :
    runFetch (fun _ => "zenodo-bytes") predictionNotebook (fun _ => none)
      ACER_ARTIFACT_PATH = some "zenodo-bytes" := by
  have H := (fetcher_three_files_overwrite.2.2 (fun _ => "zenodo-bytes") (fun _ => none)).1
    (ACER_URL, ACER_ARTIFACT_PATH) (by decide)
  exact H

/-- Claim C6: in both notebooks, every read of a local artifact (each
HDF5 data file and the weight file) is preceded by an existence
assertion on the very path being read; and an unmet assertion halts the
run immediately with its fixed descriptive message — no later statement
executes and no handled error path exists. -/
theorem reads_guarded_by_assertions :
    (readsAsserted [] predictionNotebook = true
      ∧ readsAsserted [] visualizationNotebook = true)
    ∧ ∀ (remote : String → String) (fs : FS) (p msg : String) (rest : List Step),
        fs p = none →
        runSteps remote fs (Step.assertExists p msg :: rest) = .error msg := by
  refine ⟨⟨by decide, by decide⟩, ?_⟩
  intro remote fs p msg rest hmiss
  simp [runSteps, execStep, hmiss]

/-- Witness for C6: a missing artifact halts the run with the assertion
message. -/
theorem reads_guarded_by_assertions_apply :
    runSteps (fun _ => "") (fun _ => none)
      [Step.assertExists "f.hdf5" "setup failed: artifact missing"]
      = .error "setup failed: artifact missing" :=
  reads_guarded_by_assertions.2 (fun _ => "") (fun _ => none)
    "f.hdf5" "setup failed: artifact missing" [] rfl

/-- Claim C7: every volume read and fingerprint read across both
notebooks passes the same fixed internal dataset path
`scangroup/dataset` — all eight reads use it, identically across files
and across the volume and fingerprint readers. -/
theorem internal_path_uniform :
    INTERNAL_PATH = "scangroup/dataset"
    ∧ internalPathsUsed predictionNotebook ++ internalPathsUsed visualizationNotebook
        = List.replicate 8 INTERNAL_PATH
    ∧ (internalPathsUsed predictionNotebook).length = 4
    ∧ (internalPathsUsed visualizationNotebook).length = 4 := by
  exact ⟨rfl, by decide, by decide, by decide⟩

/-- Claim C8: the transition to evaluation semantics (`model.eval()`)
happens exactly once in the prediction notebook — at position 14, after
the weights are loaded at position 13 — and is one-directional: at every
later point of the session the model is out of training mode, so both
forward passes (positions 16 and 17) run on the weights-loaded,
evaluation-mode model. -/
theorem eval_transition_one_directional :
    predictionNotebook.get? 14 = some Step.evalMode
    ∧ predictionNotebook.count Step.evalMode = 1
    ∧ predictionNotebook.get? 13 = some Step.loadStateDict
    ∧ forwardIndices predictionNotebook = [16, 17]
    ∧ (∀ n ∈ List.range (predictionNotebook.length + 1), 14 < n →
        (modeAt predictionNotebook n).training = false)
    ∧ (∀ i ∈ forwardIndices predictionNotebook,
        14 < i ∧ 13 < i ∧ (modeAt predictionNotebook i).training = false) := by
  exact ⟨by decide, by decide, by decide, by decide, by decide, by decide⟩

/-- Witness for C8: immediately after the `eval()` statement the model is
out of training mode. -/
theorem eval_transition_one_directional_apply :
    (modeAt predictionNotebook 15).training = false :=
  eval_transition_one_directional.2.2.2.2.1 15 (by decide) (by decide)

/-- Claim C9: the single weight deserialization call of the prediction
notebook passes `map_location = cpu` and `weights_only = true`; under
these arguments an artifact of arbitrary pickled objects is rejected
with an error rather than deserialized, and every tensor of a tensor
artifact is loaded onto the CPU regardless of the device it was saved
from. -/
theorem weights_only_cpu_load :
    loadWeightsCalls predictionNotebook = [(PRETRAINED_WEIGHTS_PATH, "cpu", true)]
    ∧ (∀ d : String, torch_load (.pickled d) "cpu" true =
        .error "Weights only load failed: unsupported pickled object")
    ∧ (∀ entries : List (String × String),
        torch_load (.tensors entries) "cpu" true =
          .ok (.tensors (entries.map fun e => (e.1, "cpu")))
        ∧ ∀ t ∈ entries.map fun e => (e.1, "cpu"), t.2 = "cpu") := by
  refine ⟨by decide, fun d => rfl, fun entries => ⟨rfl, ?_⟩⟩
  intro t ht
  rcases List.mem_map.mp ht with ⟨e, _, rfl⟩
  rfl

/-- Witness for C9: a pickled-object artifact is rejected; a tensor saved
on a GPU device comes back on the CPU. -/
theorem weights_only_cpu_load_apply :
    torch_load (.pickled "arbitrary object payload") "cpu" true =
      .error "Weights only load failed: unsupported pickled object"
    ∧ torch_load (.tensors [("conv.weight", "cuda:0")]) "cpu" true =
      .ok (.tensors [("conv.weight", "cpu")]) :=
  ⟨weights_only_cpu_load.2.1 "arbitrary object payload",
    (weights_only_cpu_load.2.2 [("conv.weight", "cuda:0")]).1⟩

/-- Claim C10: besides `eval()`, the prediction notebook sets the model
attribute `testing` to `true` (position 15) before any forward pass;
the flag is still `true` at both forward passes (positions 16 and 17),
and at both of them the model's final output nonlinearity is active. -/
theorem testing_flag_active_for_forwards :
    predictionNotebook.get? 15 = some (Step.setTesting true)
    ∧ forwardIndices predictionNotebook = [16, 17]
    ∧ (∀ i ∈ forwardIndices predictionNotebook,
        15 < i ∧ (modeAt predictionNotebook i).testing = true
          ∧ finalNonlinearityActive (modeAt predictionNotebook i) = true) := by
  exact ⟨by decide, by decide, by decide⟩

/-- Witness for C10: the testing flag and the final nonlinearity are
active at the second forward pass. -/
theorem testing_flag_active_for_forwards_apply :
    (modeAt predictionNotebook 17).testing = true
      ∧ finalNonlinearityActive (modeAt predictionNotebook 17) = true :=
  ⟨(testing_flag_active_for_forwards.2.2 17 (by decide)).2.1,
    (testing_flag_active_for_forwards.2.2 17 (by decide)).2.2⟩

end Woodnet
